import Mathlib

/-!
Verification development for the `dep-expand` crate (src/lib.rs).

The crate orchestrates an external `cargo rustc -- --pretty=expanded`
invocation to produce the macro-expanded source of a named dependency,
with a one-shot recovery path for registry packages whose bare manifests
are rejected by cargo ("virtual manifests must be configured with
[workspace]"), and an optional structural filter over the expanded text.

The embedding makes all external effects explicit:
  * a `World` supplies the outcome of each subprocess invocation, the
    success of each scratch-directory allocation and of each requested
    removal, the success of the recursive directory copy, the metadata
    query, and the `CARGO_MANIFEST_DIR` environment variable;
  * a state `St` counts invocations and scratch-directory allocations and
    records a chronological trace of filesystem events;
  * Rust panics (`unwrap` / `expect`) are modelled by the distinct
    `Outcome.fatal` constructor, separate from returned errors.
-/

namespace DepExpand

/-- Filesystem paths, modelled as lists of path segments. -/
abbrev Path := List String

/-- Rust `str::starts_with`, over the character list of the string. -/
def strStartsWith (s p : String) : Bool := p.data.isPrefixOf s.data

/-- Rust `str::ends_with`, over the character list of the string. -/
def strEndsWith (s p : String) : Bool := p.data.isSuffixOf s.data

/-- Rust `str::trim_end`: drop trailing whitespace characters. -/
def trimEnd (s : String) : String :=
  ⟨(s.data.reverse.dropWhile Char.isWhitespace).reverse⟩

/-- A package of the resolved dependency graph (`cargo_metadata::Package`):
the name and the location of its manifest file. -/
structure Package where
  name : String
  manifest_path : Path
deriving DecidableEq

/-- The expansion configuration (`struct Expander` in src/lib.rs), with the
same fields and defaults as `#[derive(Default)]`. -/
structure Expander where
  features : List String := []
  all_features : Bool := false
  no_default_features : Bool := false
  tests : Bool := false
  release : Bool := false
  unstable_flags : List String := []
  manifest_path : Option Path := none
deriving DecidableEq

/-- Rust `Expander::add_feature`: push one feature name. -/
def Expander.add_feature (e : Expander) (s : String) : Expander :=
  { e with features := e.features ++ [s] }

/-- Rust `Expander::add_unstable_flag`: push one unstable flag. -/
def Expander.add_unstable_flag (e : Expander) (s : String) : Expander :=
  { e with unstable_flags := e.unstable_flags ++ [s] }

/-- Rust `Expander::with_manifest`: set the manifest-path override. -/
def Expander.with_manifest (e : Expander) (p : Path) : Expander :=
  { e with manifest_path := some p }

/-- Rust `Expander::with_tests`. -/
def Expander.with_tests (e : Expander) : Expander := { e with tests := true }

/-- Rust `Expander::with_all_features`. -/
def Expander.with_all_features (e : Expander) : Expander :=
  { e with all_features := true }

/-- Rust `Expander::with_no_default_features`. -/
def Expander.with_no_default_features (e : Expander) : Expander :=
  { e with no_default_features := true }

/-- Rust `Expander::with_release`. -/
def Expander.with_release (e : Expander) : Expander := { e with release := true }

/-- The error taxonomy of the crate. All errors are `anyhow::Error` values in
the source; the tags correspond to the distinct construction sites
(`MissingWorkspace` is the only one the code discriminates, by downcast). -/
inductive Err
  | MissingWorkspace
  | InvocationError
  | EmptyOutput
  | IoError
  | PackageNotFound (name : String)
  | MetadataQueryFailed (msg : String)
  | ParseError
  | Generic (msg : String)
deriving DecidableEq

/-- Result of a fallible operation: success, a returned error, or a Rust
panic (`unwrap` / `expect`), which aborts instead of returning. -/
inductive Outcome (α : Type)
  | ok (a : α)
  | err (e : Err)
  | fatal (msg : String)
deriving DecidableEq

/-- What the external world does on one cargo invocation: whether
spawn/wait succeeded, the process exit code, the captured standard error,
and the contents of the designated output file (`none` = unreadable). -/
structure CargoRun where
  spawnOk : Bool
  exitCode : Int
  stderr : String
  outFile : Option String
deriving DecidableEq

/-- Observable filesystem events of one `expand` call. -/
inductive Event
  | createDir (dir : Path)
  | removeDir (dir : Path)
  | cargoInvoke (args : List String)
  | copyDir (src : Path) (dst : Path)
deriving DecidableEq

/-- Per-call state: how many cargo invocations and scratch-directory
allocations have happened, and the chronological event trace. -/
structure St where
  nextRun : Nat
  nextTmp : Nat
  events : List Event
deriving DecidableEq

/-- The state at the start of an `expand` call. -/
def initSt : St := ⟨0, 0, []⟩

/-- The external world: an oracle for every effect the crate performs.
`rmOk i` tells whether the removal requested by the drop of the i-th
allocated scratch directory actually succeeds on the filesystem; the
source discards that result (the `tempdir`/`tempfile` `TempDir` drops
ignore `remove_dir_all` errors), so no definition below reads it — which
is exactly what makes removal failures unobservable to the caller. -/
structure World where
  runs : Nat → CargoRun
  tmpOk : Nat → Bool
  rmOk : Nat → Bool
  copyOk : Bool
  metadata : Path → Except String (List Package)
  cargoManifestDir : Option String

/-- The path of the i-th scratch directory allocated with the given
name-prefix (tempdir crates append a uniqueness token to the prefix). -/
def mkTempPath (pfx : String) (idx : Nat) : Path :=
  [pfx ++ "." ++ Nat.repr idx]

/-- Render a path for use as a command-line argument. -/
def pathStr (p : Path) : String := String.intercalate "/" p

/-- The exact argument list built by `Expander::run_cargo` (src/lib.rs
lines 142-180), in source order. -/
def cargoArgs (cfg : Expander) (manifest : Path) (outfile : Path) : List String :=
  ["rustc", if cfg.tests then "--profile=test" else "--profile=check"]
  ++ (if cfg.release then ["--release"] else [])
  ++ (if cfg.features.isEmpty then []
      else ["--features", String.intercalate " " cfg.features])
  ++ (if cfg.all_features then ["--all-features"] else [])
  ++ (if cfg.no_default_features then ["--no-default-features"] else [])
  ++ ["--lib", "--manifest-path", pathStr manifest]
  ++ (cfg.unstable_flags.map (fun f => ["-Z", f])).flatten
  ++ ["--", "-o", pathStr outfile, "-Zunstable-options", "--pretty=expanded"]

/-- The Missing-Workspace failure signature on captured standard error
(src/lib.rs lines 185-189). -/
def missingWorkspaceSig (stderr : String) : Bool :=
  strStartsWith stderr "error: failed to parse manifest at"
    && strEndsWith (trimEnd stderr) "virtual manifests must be configured with [workspace]"

/-- Classification of one invocation's outcome (src/lib.rs lines 182-197):
spawn failure propagates as an invocation error; the stderr signature
yields `MissingWorkspace` with the exit code never inspected; otherwise
the output file is read (`IoError` if unreadable, `EmptyOutput` if empty,
its contents verbatim on success). -/
def classify (run : CargoRun) : Outcome String :=
  if !run.spawnOk then Outcome.err Err.InvocationError
  else if missingWorkspaceSig run.stderr then Outcome.err Err.MissingWorkspace
  else
    match run.outFile with
    | none => Outcome.err Err.IoError
    | some content =>
      if content = "" then Outcome.err Err.EmptyOutput
      else Outcome.ok content

/-- Rust `Expander::run_cargo`: allocate a scratch output directory
(panicking if allocation fails, as `.expect("failed to create tmp file")`
does), run cargo once, classify the outcome, and remove the scratch
directory on every return path (the `TempDir` drop). -/
def run_cargo (w : World) (cfg : Expander) (manifest : Path) (st : St) :
    Outcome String × St :=
  if w.tmpOk st.nextTmp then
    let outdir := mkTempPath "dep-expand" st.nextTmp
    let args := cargoArgs cfg manifest (outdir ++ ["expanded"])
    (classify (w.runs st.nextRun),
      { nextRun := st.nextRun + 1
        nextTmp := st.nextTmp + 1
        events := st.events ++
          [Event.createDir outdir, Event.cargoInvoke args, Event.removeDir outdir] })
  else (Outcome.fatal "failed to create tmp file", st)

/-- The manifest path handed to the metadata query: the explicit override
when configured, else `$CARGO_MANIFEST_DIR/Cargo.toml`. The default
argument of `unwrap_or` is built eagerly in the source, so the
`CARGO_MANIFEST_DIR` lookup (and its `.expect("No Manifest found")` panic
when unset) happens even when an explicit manifest path is configured;
`get_metadata` below checks the environment variable first for that
reason. -/
def metadataManifest (cfg : Expander) (dir : String) : Path :=
  match cfg.manifest_path with
  | some p => p
  | none => [dir, "Cargo.toml"]

/-- Rust `Expander::get_metadata`, continued: query the metadata service
at the configured or derived manifest path. -/
def get_metadata (w : World) (cfg : Expander) : Outcome (List Package) :=
  match w.cargoManifestDir with
  | none => Outcome.fatal "No Manifest found"
  | some dir =>
    match w.metadata (metadataManifest cfg dir) with
    | Except.ok pkgs => Outcome.ok pkgs
    | Except.error msg => Outcome.err (Err.MetadataQueryFailed msg)

/-- Rust `Expander::find_package`: first package whose name equals the
requested name exactly, else `PackageNotFound` carrying the name. -/
def find_package (w : World) (cfg : Expander) (name : String) : Outcome Package :=
  match get_metadata w cfg with
  | Outcome.fatal m => Outcome.fatal m
  | Outcome.err e => Outcome.err e
  | Outcome.ok pkgs =>
    match pkgs.find? (fun pkg => pkg.name = name) with
    | some pkg => Outcome.ok pkg
    | none => Outcome.err (Err.PackageNotFound name)

/-- Rust `Expander::expand` (src/lib.rs lines 98-134): resolve the package,
run cargo against its manifest; on a `MissingWorkspace` failure allocate a
scratch directory named after the package (panicking on allocation
failure, as `.unwrap()` does), copy the directory containing the manifest
into it, and re-run cargo once against the copied manifest; the scratch
directory is removed on every return path (the `TempDir` drop). Any other
first-attempt error, and any error of the retry, is returned as is. -/
def expand (w : World) (cfg : Expander) (package : String) (st : St) :
    Outcome String × St :=
  match find_package w cfg package with
  | Outcome.fatal m => (Outcome.fatal m, st)
  | Outcome.err e => (Outcome.err e, st)
  | Outcome.ok pkg =>
    match run_cargo w cfg pkg.manifest_path st with
    | (Outcome.ok c, st1) => (Outcome.ok c, st1)
    | (Outcome.fatal m, st1) => (Outcome.fatal m, st1)
    | (Outcome.err e, st1) =>
      if e = Err.MissingWorkspace then
        if w.tmpOk st1.nextTmp then
          let tmp := mkTempPath ("dep-expand-" ++ pkg.name) st1.nextTmp
          let st2 : St :=
            { st1 with
                nextTmp := st1.nextTmp + 1
                events := st1.events ++ [Event.createDir tmp] }
          match pkg.manifest_path.dropLast.getLast?, pkg.manifest_path with
          | _, [] =>
            (Outcome.err (Err.Generic "Failed to find dependency dir"),
              { st2 with events := st2.events ++ [Event.removeDir tmp] })
          | none, _ => (Outcome.fatal "called unwrap on a None value", st2)
          | some package_dir, _ =>
            let dep_path := pkg.manifest_path.dropLast
            if w.copyOk then
              let st3 : St :=
                { st2 with events := st2.events ++ [Event.copyDir dep_path tmp] }
              let r2 := run_cargo w cfg (tmp ++ [package_dir, "Cargo.toml"]) st3
              (r2.1, { r2.2 with events := r2.2.events ++ [Event.removeDir tmp] })
            else
              (Outcome.err Err.IoError,
                { st2 with events := st2.events ++ [Event.removeDir tmp] })
        else (Outcome.fatal "called unwrap on an Err value", st1)
      else (Outcome.err e, st1)

/-- The parsed representation of an expanded source file, as far as the
crate manipulates it (`syn::File`): shebang, file-level attributes,
top-level items. Items are opaque to the crate. -/
structure SynFile where
  shebang : Option String
  attrs : List String
  items : List String
deriving DecidableEq

/-- An opaque `syn_select::Selector`: its one operation maps the ordered
top-level item list to the replacement ordered list (`apply_to`). -/
abbrev Selector := List String → List String

/-- The external parser / pretty-printer pair (`syn::parse_file` and
`quote!`-based re-serialization), supplied as an oracle. -/
structure Syn where
  parseFile : String → Option SynFile
  printFile : SynFile → String

/-- Rust free function `filter` (src/lib.rs lines 232-239): parse, clear
shebang and file-level attributes, replace the item list by the selector's
output, re-serialize. -/
def filter (sy : Syn) (content : String) (sel : Selector) : Except Err String :=
  match sy.parseFile content with
  | none => Except.error Err.ParseError
  | some t =>
    let t1 : SynFile := { t with shebang := none, attrs := [] }
    let t2 : SynFile := { t1 with items := sel t1.items }
    Except.ok (sy.printFile t2)

/-- Rust `Expander::expand_path`: `expand`, then `filter`; either step's
error propagates unchanged. -/
def expand_path (w : World) (sy : Syn) (cfg : Expander) (package : String)
    (sel : Selector) (st : St) : Outcome String × St :=
  match expand w cfg package st with
  | (Outcome.ok content, st1) =>
    (match filter sy content sel with
     | Except.ok s => Outcome.ok s
     | Except.error e => Outcome.err e, st1)
  | other => other

/-- Test for the invocation event, for counting build invocations. -/
def isInvoke : Event → Bool
  | Event.cargoInvoke _ => true
  | _ => false

/-- Number of build invocations recorded in a trace. -/
def countInvoke (l : List Event) : Nat := (l.filter isInvoke).length

/-- Test for the panic outcome. -/
def Outcome.isFatal {α : Type} : Outcome α → Bool
  | Outcome.fatal _ => true
  | _ => false

/-- The default configuration (`Expander::default()`). -/
def cfg0 : Expander := {}

/-- A sample resolved registry package. -/
def pkgEx : Package := ⟨"acme", ["reg", "acme", "Cargo.toml"]⟩

/-- A captured standard-error text matching the Missing-Workspace
signature. -/
def sigStderr : String :=
  "error: failed to parse manifest at /reg/acme/Cargo.toml: virtual manifests must be configured with [workspace]\n"

/-- A world in which the first invocation hits the Missing-Workspace
signature and the retry succeeds, producing the text "IN". -/
def wRec : World where
  runs := fun i =>
    if i = 0 then ⟨true, 101, sigStderr, some "x"⟩
    else ⟨true, 0, "", some "IN"⟩
  tmpOk := fun _ => true
  rmOk := fun _ => true
  copyOk := true
  metadata := fun _ => Except.ok [pkgEx]
  cargoManifestDir := some "proj"

/-- The recovery world with every requested scratch-directory removal
failing on the filesystem. -/
def wRmFail : World := { wRec with rmOk := fun _ => false }

/-- A world in which every invocation hits the Missing-Workspace
signature. -/
def wMW : World where
  runs := fun _ => ⟨true, 101, sigStderr, some "x"⟩
  tmpOk := fun _ => true
  rmOk := fun _ => true
  copyOk := true
  metadata := fun _ => Except.ok [pkgEx]
  cargoManifestDir := some "proj"

/-- A world in which every scratch-directory allocation fails. -/
def wTmpFail : World where
  runs := fun _ => ⟨true, 0, "", some "out"⟩
  tmpOk := fun _ => false
  rmOk := fun _ => true
  copyOk := true
  metadata := fun _ => Except.ok [pkgEx]
  cargoManifestDir := some "proj"

/-- A world in which the first invocation hits the Missing-Workspace
signature and the recursive directory copy then fails. -/
def wCopyFail : World where
  runs := fun _ => ⟨true, 101, sigStderr, some "x"⟩
  tmpOk := fun _ => true
  rmOk := fun _ => true
  copyOk := false
  metadata := fun _ => Except.ok [pkgEx]
  cargoManifestDir := some "proj"

/-- A world whose package graph holds only a package named "foobar". -/
def wNF : World where
  runs := fun _ => ⟨true, 0, "", some "x"⟩
  tmpOk := fun _ => true
  rmOk := fun _ => true
  copyOk := true
  metadata := fun _ => Except.ok [⟨"foobar", ["d", "foobar", "Cargo.toml"]⟩]
  cargoManifestDir := some "proj"

/-- A world in which cargo succeeds but writes an empty output file. -/
def wEmpty : World where
  runs := fun _ => ⟨true, 0, "", some ""⟩
  tmpOk := fun _ => true
  rmOk := fun _ => true
  copyOk := true
  metadata := fun _ => Except.ok [pkgEx]
  cargoManifestDir := some "proj"

/-- A world with `CARGO_MANIFEST_DIR` unset. -/
def wNoEnv : World where
  runs := fun _ => ⟨true, 0, "", some "x"⟩
  tmpOk := fun _ => true
  rmOk := fun _ => true
  copyOk := true
  metadata := fun _ => Except.ok [pkgEx]
  cargoManifestDir := none

/-- A sample parser / printer oracle: "IN" parses to a file with a shebang,
one file-level attribute and items A, B, C; the filtered file with the
single item B prints as "OUT" and parses back to itself. -/
def synEx : Syn where
  parseFile s :=
    if s = "IN" then some ⟨some "shebang", ["attr"], ["A", "B", "C"]⟩
    else if s = "OUT" then some ⟨none, [], ["B"]⟩
    else none
  printFile f := if f = ⟨none, [], ["B"]⟩ then "OUT" else "IN"

/-- A selector matching exactly the item "B". -/
def selEx : Selector := fun l => l.filter (fun x => x = "B")

/-- Appending two elements in either order yields permuted lists. -/
theorem perm_append_pair (l : List String) (a b : String) :
    (l ++ [a] ++ [b]).Perm (l ++ [b] ++ [a]) := by
  rw [List.append_assoc, List.append_assoc]
  exact List.Perm.append_left l (List.Perm.swap b a [])

/-- C9: configuration builder calls are order-independent for the
accumulation of features and unstable flags (adding f1 then f2 gives the
same feature multiset as the reverse order, and previously added entries
are kept as a prefix), and every chainable mutator leaves all
previously-set options other than its own unchanged. -/
theorem c9_builder_algebra :
    ∀ (e : Expander) (f1 f2 s : String) (p : Path),
      ((e.add_feature f1).add_feature f2).features.Perm
          ((e.add_feature f2).add_feature f1).features
      ∧ ((e.add_unstable_flag f1).add_unstable_flag f2).unstable_flags.Perm
          ((e.add_unstable_flag f2).add_unstable_flag f1).unstable_flags
      ∧ (e.add_feature s).features = e.features ++ [s]
      ∧ (e.add_feature s).all_features = e.all_features
      ∧ (e.add_feature s).no_default_features = e.no_default_features
      ∧ (e.add_feature s).tests = e.tests
      ∧ (e.add_feature s).release = e.release
      ∧ (e.add_feature s).unstable_flags = e.unstable_flags
      ∧ (e.add_feature s).manifest_path = e.manifest_path
      ∧ (e.add_unstable_flag s).unstable_flags = e.unstable_flags ++ [s]
      ∧ (e.add_unstable_flag s).features = e.features
      ∧ (e.add_unstable_flag s).all_features = e.all_features
      ∧ (e.add_unstable_flag s).no_default_features = e.no_default_features
      ∧ (e.add_unstable_flag s).tests = e.tests
      ∧ (e.add_unstable_flag s).release = e.release
      ∧ (e.add_unstable_flag s).manifest_path = e.manifest_path
      ∧ (e.with_manifest p).features = e.features
      ∧ (e.with_manifest p).all_features = e.all_features
      ∧ (e.with_manifest p).no_default_features = e.no_default_features
      ∧ (e.with_manifest p).tests = e.tests
      ∧ (e.with_manifest p).release = e.release
      ∧ (e.with_manifest p).unstable_flags = e.unstable_flags
      ∧ e.with_tests.features = e.features
      ∧ e.with_tests.all_features = e.all_features
      ∧ e.with_tests.no_default_features = e.no_default_features
      ∧ e.with_tests.release = e.release
      ∧ e.with_tests.unstable_flags = e.unstable_flags
      ∧ e.with_tests.manifest_path = e.manifest_path
      ∧ e.with_all_features.features = e.features
      ∧ e.with_all_features.no_default_features = e.no_default_features
      ∧ e.with_all_features.tests = e.tests
      ∧ e.with_all_features.release = e.release
      ∧ e.with_all_features.unstable_flags = e.unstable_flags
      ∧ e.with_all_features.manifest_path = e.manifest_path
      ∧ e.with_no_default_features.features = e.features
      ∧ e.with_no_default_features.all_features = e.all_features
      ∧ e.with_no_default_features.tests = e.tests
      ∧ e.with_no_default_features.release = e.release
      ∧ e.with_no_default_features.unstable_flags = e.unstable_flags
      ∧ e.with_no_default_features.manifest_path = e.manifest_path
      ∧ e.with_release.features = e.features
      ∧ e.with_release.all_features = e.all_features
      ∧ e.with_release.no_default_features = e.no_default_features
      ∧ e.with_release.tests = e.tests
      ∧ e.with_release.unstable_flags = e.unstable_flags
      ∧ e.with_release.manifest_path = e.manifest_path := by
  intro e f1 f2 s p
  refine ⟨perm_append_pair _ _ _, perm_append_pair _ _ _, ?_⟩
  simp [Expander.add_feature, Expander.add_unstable_flag, Expander.with_manifest,
    Expander.with_tests, Expander.with_all_features,
    Expander.with_no_default_features, Expander.with_release]

/-- C2: an invocation fails with `MissingWorkspace` exactly when the
captured standard error starts with the fixed manifest-parse prefix and,
after trailing-whitespace trim, ends with the fixed virtual-manifest
suffix, independently of the exit code; otherwise an unreadable output
file yields an I/O error, an empty one yields `EmptyOutput` — which never
triggers recovery: the call ends after one invocation — and success
returns the file contents verbatim. -/
theorem c2_run_cargo_classification :
    ∀ (run : CargoRun) (c : Int),
      classify { run with exitCode := c } = classify run
      ∧ (run.spawnOk = true →
          (classify run = Outcome.err Err.MissingWorkspace ↔
            missingWorkspaceSig run.stderr = true))
      ∧ (run.spawnOk = true → missingWorkspaceSig run.stderr = false →
          (run.outFile = none → classify run = Outcome.err Err.IoError)
          ∧ (run.outFile = some "" → classify run = Outcome.err Err.EmptyOutput)
          ∧ (∀ s, run.outFile = some s → s ≠ "" → classify run = Outcome.ok s))
      ∧ (∀ (w : World) (cfg : Expander) (name : String) (pkg : Package),
          find_package w cfg name = Outcome.ok pkg →
          w.tmpOk 0 = true →
          classify (w.runs 0) = Outcome.err Err.EmptyOutput →
          (expand w cfg name initSt).1 = Outcome.err Err.EmptyOutput
          ∧ countInvoke (expand w cfg name initSt).2.events = 1) := by
  intro run c
  refine ⟨rfl, ?_, ?_, ?_⟩
  · intro hs
    simp only [classify, hs, Bool.not_true, Bool.false_eq_true, if_false]
    constructor
    · intro h
      by_contra hsig
      simp only [Bool.not_eq_true] at hsig
      simp only [hsig, if_false] at h
      cases hof : run.outFile with
      | none => simp [hof] at h
      | some s =>
        simp only [hof] at h
        by_cases hse : s = "" <;> simp [hse] at h
    · intro hsig; simp [hsig]
  · intro hs hsig
    refine ⟨?_, ?_, ?_⟩
    · intro hof; simp [classify, hs, hsig, hof]
    · intro hof; simp [classify, hs, hsig, hof]
    · intro s hof hse; simp [classify, hs, hsig, hof, hse]
  · intro w cfg name pkg hfind htmp hcls
    have h : expand w cfg name initSt =
        (Outcome.err Err.EmptyOutput,
          ⟨1, 1,
            [Event.createDir (mkTempPath "dep-expand" 0),
             Event.cargoInvoke (cargoArgs cfg pkg.manifest_path
               (mkTempPath "dep-expand" 0 ++ ["expanded"])),
             Event.removeDir (mkTempPath "dep-expand" 0)]⟩) := by
      simp [expand, hfind, run_cargo, initSt, htmp, hcls]
    rw [h]
    exact ⟨rfl, by simp [countInvoke, isInvoke]⟩

/-- C2 witness: a matching signature on stderr is classified as
`MissingWorkspace` (at exit code 101), and in a world where cargo writes
an empty output file `expand` fails with `EmptyOutput` after exactly one
invocation. -/
theorem c2_witness :
    classify ⟨true, 101, sigStderr, some "x"⟩ = Outcome.err Err.MissingWorkspace
    ∧ (expand wEmpty cfg0 "acme" initSt).1 = Outcome.err Err.EmptyOutput
    ∧ countInvoke (expand wEmpty cfg0 "acme" initSt).2.events = 1 := by
  refine ⟨((c2_run_cargo_classification ⟨true, 101, sigStderr, some "x"⟩ 0).2.1
    (by decide)).mpr (by decide), ?_, ?_⟩
  · exact ((c2_run_cargo_classification ⟨true, 0, "", some ""⟩ 0).2.2.2 wEmpty cfg0
      "acme" pkgEx (by decide) (by decide) (by decide)).1
  · exact ((c2_run_cargo_classification ⟨true, 0, "", some ""⟩ 0).2.2.2 wEmpty cfg0
      "acme" pkgEx (by decide) (by decide) (by decide)).2

/-- C4: a dependency name with no exactly-equal match in the resolved
package graph makes `expand` fail with `PackageNotFound` carrying the
requested name, with zero build invocations and no filesystem events;
conversely a successful lookup returns a package of the graph whose name
is exactly the requested one. -/
theorem c4_package_not_found_exact_match :
    ∀ (w : World) (cfg : Expander) (name : String) (pkgs : List Package),
      get_metadata w cfg = Outcome.ok pkgs →
      ((∀ p ∈ pkgs, p.name ≠ name) →
        expand w cfg name initSt = (Outcome.err (Err.PackageNotFound name), initSt)
        ∧ countInvoke (expand w cfg name initSt).2.events = 0)
      ∧ (∀ p, find_package w cfg name = Outcome.ok p → p ∈ pkgs ∧ p.name = name) := by
  intro w cfg name pkgs hmd
  constructor
  · intro habs
    have hfind : find_package w cfg name = Outcome.err (Err.PackageNotFound name) := by
      have hnone : pkgs.find? (fun pkg => pkg.name = name) = none := by
        rw [List.find?_eq_none]
        intro p hp
        simp [habs p hp]
      simp [find_package, hmd, hnone]
    have h : expand w cfg name initSt = (Outcome.err (Err.PackageNotFound name), initSt) := by
      simp [expand, hfind]
    exact ⟨h, by rw [h]; simp [initSt, countInvoke]⟩
  · intro p hp
    simp only [find_package, hmd] at hp
    cases hfind : pkgs.find? (fun pkg => pkg.name = name) with
    | none => simp [hfind] at hp
    | some q =>
      simp only [hfind, Outcome.ok.injEq] at hp
      subst hp
      exact ⟨List.mem_of_find?_eq_some hfind,
        by simpa using List.find?_some hfind⟩

/-- C4 witness: looking up "foo" in a graph holding only "foobar" fails
with `PackageNotFound "foo"` (no prefix matching) and performs zero
invocations. -/
theorem c4_witness :
    expand wNF cfg0 "foo" initSt = (Outcome.err (Err.PackageNotFound "foo"), initSt)
    ∧ countInvoke (expand wNF cfg0 "foo" initSt).2.events = 0 :=
  (c4_package_not_found_exact_match wNF cfg0 "foo"
    [⟨"foobar", ["d", "foobar", "Cargo.toml"]⟩] (by decide)).1 (by decide)

/-- C10: with no explicit manifest-path override configured and
`CARGO_MANIFEST_DIR` unset, `expand` and `expand_path` panic with
"No Manifest found" during metadata resolution; no error value reaches
the public interface in such an environment. -/
theorem c10_env_unset_panics :
    ∀ (w : World) (cfg : Expander) (name : String) (sy : Syn) (sel : Selector) (st : St),
      cfg.manifest_path = none → w.cargoManifestDir = none →
      (expand w cfg name st).1 = Outcome.fatal "No Manifest found"
      ∧ (expand_path w sy cfg name sel st).1 = Outcome.fatal "No Manifest found"
      ∧ (∀ e, (expand w cfg name st).1 ≠ Outcome.err e) := by
  intro w cfg name sy sel st hmp henv
  have hmd : get_metadata w cfg = Outcome.fatal "No Manifest found" := by
    simp [get_metadata, henv]
  have hfind : find_package w cfg name = Outcome.fatal "No Manifest found" := by
    simp [find_package, hmd]
  have h : expand w cfg name st = (Outcome.fatal "No Manifest found", st) := by
    simp [expand, hfind]
  refine ⟨by rw [h], ?_, by rw [h]; intro e hc; cases hc⟩
  simp [expand_path, h]

/-- C10 witness: in a world with the environment variable unset, `expand`
under the default configuration panics with "No Manifest found". -/
theorem c10_witness :
    (expand wNoEnv cfg0 "acme" initSt).1 = Outcome.fatal "No Manifest found" :=
  (c10_env_unset_panics wNoEnv cfg0 "acme" synEx selEx initSt rfl rfl).1

/-- C5: `filter` fails with `ParseError` exactly on unparsable input;
otherwise it re-serializes the parsed file with the shebang cleared, the
file-level attribute list emptied, and the item list replaced by exactly
the selector's output on the full item list; consequently, whenever the
external printer/parser pair round-trips on the filtered file, the
filtered text parses, its items are exactly the selector's matches, and
it has no shebang and no file-level attributes. -/
theorem c5_filter_spec :
    ∀ (sy : Syn) (sel : Selector) (content : String),
      (sy.parseFile content = none →
        filter sy content sel = Except.error Err.ParseError)
      ∧ (∀ t, sy.parseFile content = some t →
          filter sy content sel =
            Except.ok (sy.printFile ⟨none, [], sel t.items⟩))
      ∧ (∀ t, sy.parseFile content = some t →
          sy.parseFile (sy.printFile ⟨none, [], sel t.items⟩) =
            some ⟨none, [], sel t.items⟩ →
          ∃ out, filter sy content sel = Except.ok out
            ∧ ∃ t', sy.parseFile out = some t'
              ∧ t'.items = sel t.items ∧ t'.shebang = none ∧ t'.attrs = []) := by
  intro sy sel content
  refine ⟨?_, ?_, ?_⟩
  · intro h; simp [filter, h]
  · intro t h; simp [filter, h]
  · intro t h hrt
    refine ⟨sy.printFile ⟨none, [], sel t.items⟩, by simp [filter, h], ?_⟩
    exact ⟨⟨none, [], sel t.items⟩, hrt, rfl, rfl, rfl⟩

/-- C5 witness: filtering the text "IN" (shebang, one file attribute,
items A, B, C) by the selector matching only B yields a text that parses,
whose items are exactly B, with no shebang and no attributes. -/
theorem c5_witness :
    ∃ out, filter synEx "IN" selEx = Except.ok out
      ∧ ∃ t', synEx.parseFile out = some t'
        ∧ t'.items = ["B"] ∧ t'.shebang = none ∧ t'.attrs = [] :=
  (c5_filter_spec synEx selEx "IN").2.2 ⟨some "shebang", ["attr"], ["A", "B", "C"]⟩
    (by decide) (by decide)

/-- C6: `expand_path` is the composition of `expand` with `filter`: an
error (or panic) of `expand` propagates unchanged, a `filter` error on
the expanded text propagates unchanged, the doubly-successful case
returns the filtered text, and the event trace is exactly the one of
`expand`. -/
theorem c6_expand_path_composition :
    ∀ (w : World) (sy : Syn) (cfg : Expander) (name : String) (sel : Selector) (st : St),
      (∀ e, (expand w cfg name st).1 = Outcome.err e →
        (expand_path w sy cfg name sel st).1 = Outcome.err e)
      ∧ (∀ m, (expand w cfg name st).1 = Outcome.fatal m →
        (expand_path w sy cfg name sel st).1 = Outcome.fatal m)
      ∧ (∀ c e, (expand w cfg name st).1 = Outcome.ok c →
          filter sy c sel = Except.error e →
          (expand_path w sy cfg name sel st).1 = Outcome.err e)
      ∧ (∀ c s, (expand w cfg name st).1 = Outcome.ok c →
          filter sy c sel = Except.ok s →
          (expand_path w sy cfg name sel st).1 = Outcome.ok s)
      ∧ (expand_path w sy cfg name sel st).2 = (expand w cfg name st).2 := by
  intro w sy cfg name sel st
  rcases hE : expand w cfg name st with ⟨r, st1⟩
  cases r with
  | ok c =>
    refine ⟨?_, ?_, ?_, ?_, ?_⟩
    · intro e he; simp at he
    · intro m hm; simp at hm
    · intro c2 e hc hf
      simp only [Outcome.ok.injEq] at hc
      subst hc
      simp [expand_path, hE, hf]
    · intro c2 s hc hf
      simp only [Outcome.ok.injEq] at hc
      subst hc
      simp [expand_path, hE, hf]
    · cases hf : filter sy c sel <;> simp [expand_path, hE, hf]
  | err e0 =>
    refine ⟨?_, ?_, ?_, ?_, ?_⟩
    · intro e he
      simp only [Outcome.err.injEq] at he
      subst he
      simp [expand_path, hE]
    · intro m hm; simp at hm
    · intro c e hc _; simp at hc
    · intro c s hc _; simp at hc
    · simp [expand_path, hE]
  | fatal m0 =>
    refine ⟨?_, ?_, ?_, ?_, ?_⟩
    · intro e he; simp at he
    · intro m hm
      simp only [Outcome.fatal.injEq] at hm
      subst hm
      simp [expand_path, hE]
    · intro c e hc _; simp at hc
    · intro c s hc _; simp at hc
    · simp [expand_path, hE]

/-- C6 witness: in the recovery world, `expand` returns "IN" and
`expand_path` with the B-selector returns the filtered text "OUT",
exactly `filter` applied to the result of `expand`. -/
theorem c6_witness :
    (expand_path wRec synEx cfg0 "acme" selEx initSt).1 = Outcome.ok "OUT" :=
  (c6_expand_path_composition wRec synEx cfg0 "acme" selEx initSt).2.2.2.1
    "IN" "OUT" (by decide) (by rfl)

/-- C1: when the first invocation for a resolved package fails with the
Missing-Workspace signature (and the recovery filesystem steps succeed),
`expand` performs exactly one retry: it creates a fresh scratch directory
whose name embeds the package name, copies the directory containing the
package's manifest into it — the copy keeping the directory's final
path-segment name `pd` — re-invokes cargo on the copied manifest inside
the scratch directory, for exactly two invocations in total, and the
retry's own outcome (any failure included) is the final result, with no
further recovery layer. -/
theorem c1_missing_workspace_recovery :
    ∀ (w : World) (cfg : Expander) (name : String) (pkg : Package) (pd : String),
      find_package w cfg name = Outcome.ok pkg →
      (∀ i, w.tmpOk i = true) →
      w.copyOk = true →
      classify (w.runs 0) = Outcome.err Err.MissingWorkspace →
      pkg.manifest_path ≠ [] →
      pkg.manifest_path.dropLast.getLast? = some pd →
      expand w cfg name initSt =
        (classify (w.runs 1),
          ⟨2, 3,
            [Event.createDir (mkTempPath "dep-expand" 0),
             Event.cargoInvoke (cargoArgs cfg pkg.manifest_path
               (mkTempPath "dep-expand" 0 ++ ["expanded"])),
             Event.removeDir (mkTempPath "dep-expand" 0),
             Event.createDir (mkTempPath ("dep-expand-" ++ pkg.name) 1),
             Event.copyDir pkg.manifest_path.dropLast
               (mkTempPath ("dep-expand-" ++ pkg.name) 1),
             Event.createDir (mkTempPath "dep-expand" 2),
             Event.cargoInvoke (cargoArgs cfg
               (mkTempPath ("dep-expand-" ++ pkg.name) 1 ++ [pd, "Cargo.toml"])
               (mkTempPath "dep-expand" 2 ++ ["expanded"])),
             Event.removeDir (mkTempPath "dep-expand" 2),
             Event.removeDir (mkTempPath ("dep-expand-" ++ pkg.name) 1)]⟩)
      ∧ countInvoke (expand w cfg name initSt).2.events = 2
      ∧ ∃ pre post,
          mkTempPath ("dep-expand-" ++ pkg.name) 1 = [pre ++ pkg.name ++ post] := by
  intro w cfg name pkg pd hfind htmp hcopy hcls hne hgl
  have h : expand w cfg name initSt =
      (classify (w.runs 1),
        ⟨2, 3,
          [Event.createDir (mkTempPath "dep-expand" 0),
           Event.cargoInvoke (cargoArgs cfg pkg.manifest_path
             (mkTempPath "dep-expand" 0 ++ ["expanded"])),
           Event.removeDir (mkTempPath "dep-expand" 0),
           Event.createDir (mkTempPath ("dep-expand-" ++ pkg.name) 1),
           Event.copyDir pkg.manifest_path.dropLast
             (mkTempPath ("dep-expand-" ++ pkg.name) 1),
           Event.createDir (mkTempPath "dep-expand" 2),
           Event.cargoInvoke (cargoArgs cfg
             (mkTempPath ("dep-expand-" ++ pkg.name) 1 ++ [pd, "Cargo.toml"])
             (mkTempPath "dep-expand" 2 ++ ["expanded"])),
           Event.removeDir (mkTempPath "dep-expand" 2),
           Event.removeDir (mkTempPath ("dep-expand-" ++ pkg.name) 1)]⟩) := by
    simp [expand, hfind, run_cargo, initSt, htmp, hcls, hcopy, hne, hgl]
  refine ⟨h, by rw [h]; simp [countInvoke, isInvoke], ?_⟩
  refine ⟨"dep-expand-", "." ++ Nat.repr 1, ?_⟩
  simp [mkTempPath, String.append_assoc]

/-- C1 witness: in the recovery world (first invocation Missing-Workspace,
retry succeeds), `expand` on "acme" runs exactly two invocations, and the
copy target inside the scratch directory keeps the subdirectory name
"acme" of the original package directory. -/
theorem c1_witness :
    countInvoke (expand wRec cfg0 "acme" initSt).2.events = 2
    ∧ pkgEx.manifest_path.dropLast.getLast? = some "acme" :=
  ⟨(c1_missing_workspace_recovery wRec cfg0 "acme" pkgEx "acme"
      (by decide) (fun i => rfl) rfl (by decide) (by decide) (by decide)).2.1,
    by decide⟩

/-- Classification of an invocation outcome never panics. -/
theorem classify_ne_fatal (run : CargoRun) (m : String) :
    classify run ≠ Outcome.fatal m := by
  intro h
  unfold classify at h
  cases hs : run.spawnOk <;> simp [hs] at h
  cases hw : missingWorkspaceSig run.stderr <;> simp [hw] at h
  cases ho : run.outFile with
  | none => simp [ho] at h
  | some content =>
    simp only [ho] at h
    by_cases hc : content = "" <;> simp [hc] at h

/-- C7: on every non-panicking exit path of `expand` — success or returned
error — every scratch directory whose creation was recorded in the trace
also has its removal recorded in the trace by the time `expand` returns. -/
theorem c7_scratch_dirs_removed :
    ∀ (w : World) (cfg : Expander) (name : String),
      (expand w cfg name initSt).1.isFatal = false →
      ∀ d, Event.createDir d ∈ (expand w cfg name initSt).2.events →
        Event.removeDir d ∈ (expand w cfg name initSt).2.events := by
  intro w cfg name hnf d hd
  cases hf : find_package w cfg name with
  | fatal m =>
    have he : expand w cfg name initSt = (Outcome.fatal m, initSt) := by
      simp [expand, hf]
    rw [he] at hnf
    simp [Outcome.isFatal] at hnf
  | err e =>
    have he : expand w cfg name initSt = (Outcome.err e, initSt) := by
      simp [expand, hf]
    rw [he] at hd
    simp [initSt] at hd
  | ok pkg =>
    cases ht0 : w.tmpOk 0 with
    | false =>
      have he : expand w cfg name initSt =
          (Outcome.fatal "failed to create tmp file", initSt) := by
        simp [expand, hf, run_cargo, initSt, ht0]
      rw [he] at hnf
      simp [Outcome.isFatal] at hnf
    | true =>
      cases hc0 : classify (w.runs 0) with
      | fatal m => exact absurd hc0 (classify_ne_fatal _ _)
      | ok c =>
        have he : expand w cfg name initSt =
            (Outcome.ok c,
              ⟨1, 1,
                [Event.createDir (mkTempPath "dep-expand" 0),
                 Event.cargoInvoke (cargoArgs cfg pkg.manifest_path
                   (mkTempPath "dep-expand" 0 ++ ["expanded"])),
                 Event.removeDir (mkTempPath "dep-expand" 0)]⟩) := by
          simp [expand, hf, run_cargo, initSt, ht0, hc0]
        rw [he] at hd ⊢
        simp only [List.mem_cons, List.not_mem_nil, or_false] at hd ⊢
        rcases hd with h | h | h <;> simp_all
      | err e =>
        by_cases hMW : e = Err.MissingWorkspace
        · subst hMW
          cases ht1 : w.tmpOk 1 with
          | false =>
            have he : expand w cfg name initSt =
                (Outcome.fatal "called unwrap on an Err value",
                  ⟨1, 1,
                    [Event.createDir (mkTempPath "dep-expand" 0),
                     Event.cargoInvoke (cargoArgs cfg pkg.manifest_path
                       (mkTempPath "dep-expand" 0 ++ ["expanded"])),
                     Event.removeDir (mkTempPath "dep-expand" 0)]⟩) := by
              simp [expand, hf, run_cargo, initSt, ht0, hc0, ht1]
            rw [he] at hnf
            simp [Outcome.isFatal] at hnf
          | true =>
            by_cases hne : pkg.manifest_path = []
            · have he : expand w cfg name initSt =
                  (Outcome.err (Err.Generic "Failed to find dependency dir"),
                    ⟨1, 2,
                      [Event.createDir (mkTempPath "dep-expand" 0),
                       Event.cargoInvoke (cargoArgs cfg pkg.manifest_path
                         (mkTempPath "dep-expand" 0 ++ ["expanded"])),
                       Event.removeDir (mkTempPath "dep-expand" 0),
                       Event.createDir (mkTempPath ("dep-expand-" ++ pkg.name) 1),
                       Event.removeDir (mkTempPath ("dep-expand-" ++ pkg.name) 1)]⟩) := by
                simp [expand, hf, run_cargo, initSt, ht0, hc0, ht1, hne]
              rw [he] at hd ⊢
              simp only [List.mem_cons, List.not_mem_nil, or_false] at hd ⊢
              rcases hd with h | h | h | h | h <;> simp_all
            · cases hgl : pkg.manifest_path.dropLast.getLast? with
              | none =>
                have he : (expand w cfg name initSt).1 =
                    Outcome.fatal "called unwrap on a None value" := by
                  simp [expand, hf, run_cargo, initSt, ht0, hc0, ht1, hne, hgl]
                rw [he] at hnf
                simp [Outcome.isFatal] at hnf
              | some pd =>
                cases hcp : w.copyOk with
                | false =>
                  have he : expand w cfg name initSt =
                      (Outcome.err Err.IoError,
                        ⟨1, 2,
                          [Event.createDir (mkTempPath "dep-expand" 0),
                           Event.cargoInvoke (cargoArgs cfg pkg.manifest_path
                             (mkTempPath "dep-expand" 0 ++ ["expanded"])),
                           Event.removeDir (mkTempPath "dep-expand" 0),
                           Event.createDir (mkTempPath ("dep-expand-" ++ pkg.name) 1),
                           Event.removeDir (mkTempPath ("dep-expand-" ++ pkg.name) 1)]⟩) := by
                    simp [expand, hf, run_cargo, initSt, ht0, hc0, ht1, hne, hgl, hcp]
                  rw [he] at hd ⊢
                  simp only [List.mem_cons, List.not_mem_nil, or_false] at hd ⊢
                  rcases hd with h | h | h | h | h <;> simp_all
                | true =>
                  cases ht2 : w.tmpOk 2 with
                  | false =>
                    have he : (expand w cfg name initSt).1 =
                        Outcome.fatal "failed to create tmp file" := by
                      simp [expand, hf, run_cargo, initSt, ht0, hc0, ht1, hne, hgl, hcp, ht2]
                    rw [he] at hnf
                    simp [Outcome.isFatal] at hnf
                  | true =>
                    have he : expand w cfg name initSt =
                        (classify (w.runs 1),
                          ⟨2, 3,
                            [Event.createDir (mkTempPath "dep-expand" 0),
                             Event.cargoInvoke (cargoArgs cfg pkg.manifest_path
                               (mkTempPath "dep-expand" 0 ++ ["expanded"])),
                             Event.removeDir (mkTempPath "dep-expand" 0),
                             Event.createDir (mkTempPath ("dep-expand-" ++ pkg.name) 1),
                             Event.copyDir pkg.manifest_path.dropLast
                               (mkTempPath ("dep-expand-" ++ pkg.name) 1),
                             Event.createDir (mkTempPath "dep-expand" 2),
                             Event.cargoInvoke (cargoArgs cfg
                               (mkTempPath ("dep-expand-" ++ pkg.name) 1 ++ [pd, "Cargo.toml"])
                               (mkTempPath "dep-expand" 2 ++ ["expanded"])),
                             Event.removeDir (mkTempPath "dep-expand" 2),
                             Event.removeDir (mkTempPath ("dep-expand-" ++ pkg.name) 1)]⟩) := by
                      simp [expand, hf, run_cargo, initSt, ht0, hc0, ht1, hne, hgl, hcp, ht2]
                    rw [he] at hd ⊢
                    simp only [List.mem_cons, List.not_mem_nil, or_false] at hd ⊢
                    rcases hd with h | h | h | h | h | h | h | h | h <;> simp_all
        · have he : expand w cfg name initSt =
              (Outcome.err e,
                ⟨1, 1,
                  [Event.createDir (mkTempPath "dep-expand" 0),
                   Event.cargoInvoke (cargoArgs cfg pkg.manifest_path
                     (mkTempPath "dep-expand" 0 ++ ["expanded"])),
                   Event.removeDir (mkTempPath "dep-expand" 0)]⟩) := by
            simp [expand, hf, run_cargo, initSt, ht0, hc0, hMW]
          rw [he] at hd ⊢
          simp only [List.mem_cons, List.not_mem_nil, or_false] at hd ⊢
          rcases hd with h | h | h <;> simp_all

/-- C7 witness: in the two-invocation recovery world the first output
directory is created and removed, and `expand` does not panic. -/
theorem c7_witness :
    Event.removeDir (mkTempPath "dep-expand" 0) ∈
      (expand wRec cfg0 "acme" initSt).2.events :=
  c7_scratch_dirs_removed wRec cfg0 "acme" (by decide)
    (mkTempPath "dep-expand" 0) (by decide)

/-- Metadata-query failures are tagged `MetadataQueryFailed`. -/
theorem get_metadata_err_shape (w : World) (cfg : Expander) (e : Err) :
    get_metadata w cfg = Outcome.err e → ∃ msg, e = Err.MetadataQueryFailed msg := by
  unfold get_metadata
  cases hd : w.cargoManifestDir with
  | none => intro h; simp at h
  | some dir =>
    intro h
    cases hmd : w.metadata (metadataManifest cfg dir) with
    | ok pkgs => simp [hmd] at h
    | error msg =>
      simp only [hmd, Outcome.err.injEq] at h
      exact ⟨msg, h.symm⟩

/-- Package resolution never fails with `MissingWorkspace`. -/
theorem find_package_ne_missing (w : World) (cfg : Expander) (name : String) :
    find_package w cfg name ≠ Outcome.err Err.MissingWorkspace := by
  intro h
  unfold find_package at h
  cases hm : get_metadata w cfg with
  | fatal m => simp [hm] at h
  | err e =>
    simp only [hm, Outcome.err.injEq] at h
    obtain ⟨msg, hmsg⟩ := get_metadata_err_shape w cfg e hm
    rw [hmsg] at h
    cases h
  | ok pkgs =>
    simp only [hm] at h
    cases hf : pkgs.find? (fun pkg => pkg.name = name) <;> simp [hf] at h

/-- C3 counterexample: in a world where both the first invocation and the
retry produce the Missing-Workspace stderr signature, `expand` returns
the `MissingWorkspace` error directly to the external caller. -/
theorem c3_counterexample :
    (expand wMW cfg0 "acme" initSt).1 = Outcome.err Err.MissingWorkspace := by
  decide

/-- C3 amended: a first-attempt `MissingWorkspace` never reaches the
caller on its own — whenever `expand` returns `MissingWorkspace`, both
the first invocation and the recovery retry were classified
`MissingWorkspace`, and exactly two invocations occurred, so the returned
error is the recovery attempt's own terminal error. -/
theorem c3_missing_workspace_via_retry_only :
    ∀ (w : World) (cfg : Expander) (name : String),
      (expand w cfg name initSt).1 = Outcome.err Err.MissingWorkspace →
      classify (w.runs 0) = Outcome.err Err.MissingWorkspace
      ∧ classify (w.runs 1) = Outcome.err Err.MissingWorkspace
      ∧ countInvoke (expand w cfg name initSt).2.events = 2 := by
  intro w cfg name hres
  cases hf : find_package w cfg name with
  | fatal m =>
    have he : expand w cfg name initSt = (Outcome.fatal m, initSt) := by
      simp [expand, hf]
    rw [he] at hres
    simp at hres
  | err e =>
    have he : expand w cfg name initSt = (Outcome.err e, initSt) := by
      simp [expand, hf]
    rw [he] at hres
    simp only [Outcome.err.injEq] at hres
    subst hres
    exact absurd hf (find_package_ne_missing w cfg name)
  | ok pkg =>
    cases ht0 : w.tmpOk 0 with
    | false =>
      have he : (expand w cfg name initSt).1 =
          Outcome.fatal "failed to create tmp file" := by
        simp [expand, hf, run_cargo, initSt, ht0]
      rw [he] at hres
      simp at hres
    | true =>
      cases hc0 : classify (w.runs 0) with
      | fatal m => exact absurd hc0 (classify_ne_fatal _ _)
      | ok c =>
        have he : (expand w cfg name initSt).1 = Outcome.ok c := by
          simp [expand, hf, run_cargo, initSt, ht0, hc0]
        rw [he] at hres
        simp at hres
      | err e =>
        by_cases hMW : e = Err.MissingWorkspace
        · subst hMW
          cases ht1 : w.tmpOk 1 with
          | false =>
            have he : (expand w cfg name initSt).1 =
                Outcome.fatal "called unwrap on an Err value" := by
              simp [expand, hf, run_cargo, initSt, ht0, hc0, ht1]
            rw [he] at hres
            simp at hres
          | true =>
            by_cases hne : pkg.manifest_path = []
            · have he : (expand w cfg name initSt).1 =
                  Outcome.err (Err.Generic "Failed to find dependency dir") := by
                simp [expand, hf, run_cargo, initSt, ht0, hc0, ht1, hne]
              rw [he] at hres
              simp at hres
            · cases hgl : pkg.manifest_path.dropLast.getLast? with
              | none =>
                have he : (expand w cfg name initSt).1 =
                    Outcome.fatal "called unwrap on a None value" := by
                  simp [expand, hf, run_cargo, initSt, ht0, hc0, ht1, hne, hgl]
                rw [he] at hres
                simp at hres
              | some pd =>
                cases hcp : w.copyOk with
                | false =>
                  have he : (expand w cfg name initSt).1 = Outcome.err Err.IoError := by
                    simp [expand, hf, run_cargo, initSt, ht0, hc0, ht1, hne, hgl, hcp]
                  rw [he] at hres
                  simp at hres
                | true =>
                  cases ht2 : w.tmpOk 2 with
                  | false =>
                    have he : (expand w cfg name initSt).1 =
                        Outcome.fatal "failed to create tmp file" := by
                      simp [expand, hf, run_cargo, initSt, ht0, hc0, ht1, hne, hgl, hcp, ht2]
                    rw [he] at hres
                    simp at hres
                  | true =>
                    have he : expand w cfg name initSt =
                        (classify (w.runs 1),
                          ⟨2, 3,
                            [Event.createDir (mkTempPath "dep-expand" 0),
                             Event.cargoInvoke (cargoArgs cfg pkg.manifest_path
                               (mkTempPath "dep-expand" 0 ++ ["expanded"])),
                             Event.removeDir (mkTempPath "dep-expand" 0),
                             Event.createDir (mkTempPath ("dep-expand-" ++ pkg.name) 1),
                             Event.copyDir pkg.manifest_path.dropLast
                               (mkTempPath ("dep-expand-" ++ pkg.name) 1),
                             Event.createDir (mkTempPath "dep-expand" 2),
                             Event.cargoInvoke (cargoArgs cfg
                               (mkTempPath ("dep-expand-" ++ pkg.name) 1 ++ [pd, "Cargo.toml"])
                               (mkTempPath "dep-expand" 2 ++ ["expanded"])),
                             Event.removeDir (mkTempPath "dep-expand" 2),
                             Event.removeDir (mkTempPath ("dep-expand-" ++ pkg.name) 1)]⟩) := by
                      simp [expand, hf, run_cargo, initSt, ht0, hc0, ht1, hne, hgl, hcp, ht2]
                    rw [he] at hres
                    rw [he]
                    exact ⟨rfl, hres, by simp [countInvoke, isInvoke]⟩
        · have he : (expand w cfg name initSt).1 = Outcome.err e := by
            simp [expand, hf, run_cargo, initSt, ht0, hc0, hMW]
          rw [he] at hres
          simp only [Outcome.err.injEq] at hres
          exact absurd hres hMW

/-- C3 witness: in the doubly-failing world, the `MissingWorkspace` that
reaches the caller is the retry's own, after exactly two invocations. -/
theorem c3_witness :
    countInvoke (expand wMW cfg0 "acme" initSt).2.events = 2 :=
  (c3_missing_workspace_via_retry_only wMW cfg0 "acme" (by decide)).2.2

/-- C8 counterexample: a filesystem failure while creating the scratch
output directory makes `expand` panic ("failed to create tmp file")
instead of returning an I/O error; and a filesystem failure of every
requested scratch-directory removal yields plain success — not an I/O
error either — because the `TempDir` drops discard removal errors. -/
theorem c8_counterexample :
    (expand wTmpFail cfg0 "acme" initSt).1 =
      Outcome.fatal "failed to create tmp file"
    ∧ (expand wRmFail cfg0 "acme" initSt).1 = Outcome.ok "IN" :=
  ⟨by decide, by decide⟩

/-- C8 amended: failures of the recursive package-directory copy and of
reading the designated output file surface to the caller as returned I/O
errors; a failure to create a scratch directory panics (aborts via
`expect`/`unwrap`) instead of returning an error; and a failure of a
requested scratch-directory removal is discarded by the `TempDir` drops:
it surfaces neither as an error nor as a panic, the result and event
trace of `expand` being invariant under the removal oracle. -/
theorem c8_fs_failure_surface :
    ∀ (w : World) (cfg : Expander) (name : String) (pkg : Package),
      (find_package w cfg name = Outcome.ok pkg →
        (w.tmpOk 0 = false →
          (expand w cfg name initSt).1 = Outcome.fatal "failed to create tmp file")
        ∧ (w.tmpOk 0 = true → (w.runs 0).spawnOk = true →
            missingWorkspaceSig (w.runs 0).stderr = false → (w.runs 0).outFile = none →
            (expand w cfg name initSt).1 = Outcome.err Err.IoError)
        ∧ (w.tmpOk 0 = true → w.tmpOk 1 = true →
            classify (w.runs 0) = Outcome.err Err.MissingWorkspace →
            pkg.manifest_path ≠ [] →
            ∀ pd, pkg.manifest_path.dropLast.getLast? = some pd →
            w.copyOk = false →
            (expand w cfg name initSt).1 = Outcome.err Err.IoError))
      ∧ (∀ r, expand { w with rmOk := r } cfg name initSt =
          expand w cfg name initSt) := by
  intro w cfg name pkg
  constructor
  · intro hfind
    refine ⟨?_, ?_, ?_⟩
    · intro ht0
      simp [expand, hfind, run_cargo, initSt, ht0]
    · intro ht0 hs hsig hof
      have hcl : classify (w.runs 0) = Outcome.err Err.IoError := by
        simp [classify, hs, hsig, hof]
      simp [expand, hfind, run_cargo, initSt, ht0, hcl]
    · intro ht0 ht1 hcl hne pd hgl hcp
      simp [expand, hfind, run_cargo, initSt, ht0, ht1, hcl, hne, hgl, hcp]
  · intro r
    rfl

/-- C8 witness: a copy failure during recovery surfaces as a returned
I/O error, and making every requested removal fail changes nothing in
the outcome of the recovery world. -/
theorem c8_witness :
    (expand wCopyFail cfg0 "acme" initSt).1 = Outcome.err Err.IoError
    ∧ expand { wRec with rmOk := fun _ => false } cfg0 "acme" initSt =
        expand wRec cfg0 "acme" initSt :=
  ⟨(c8_fs_failure_surface wCopyFail cfg0 "acme" pkgEx).1 (by decide)
      |>.2.2 rfl rfl (by decide) (by decide) "acme" (by decide) rfl,
    (c8_fs_failure_surface wRec cfg0 "acme" pkgEx).2 (fun _ => false)⟩

end DepExpand
